import Mathlib

/-!
Shallow embedding of the amusic-mobile client (TypeScript/React/Ionic):
the API client (`api.service.ts`), the playback adapter (`audio.service.ts`),
the player state controller (`PlayerProvider` context), the search screen
handler (`Home.tsx`) and the player screen's time formatter (`Player.tsx`).

Conventions of the embedding:
- JavaScript numbers are modelled as `ℚ`; a possibly-NaN number is `Option ℚ`
  with `none` standing for NaN (`audio.duration || 0` becomes `Option.getD 0`).
- The single `HTMLAudioElement` is a record `AudioElem`.  Media events are
  delivered through an explicit queue of `MediaTask`s: per the HTML media
  element load algorithm, assigning `src` and calling `load()` removes all
  pending media tasks of the superseded resource and aborts its fetch; this
  is modelled by `elemSetSrcLoad` clearing the queue and bumping a load
  generation counter (new events are always tagged with the current
  generation, since an aborted fetch can no longer queue events).
- Commands the service sends to the audio primitive are logged in `elemCmds`
  so that "delegates to the primitive" is observable.
- Invocations of the registered `onError` callback are counted in
  `errorCbCalls`, and the message handed to it is kept in `lastError`.
-/

namespace AMusic

/-- `Thumbnail` from `music.types.ts`. -/
structure Thumbnail where
  url : String
  width : Nat
  height : Nat
deriving DecidableEq, Repr

/-- `Song` from `music.types.ts`. -/
structure Song where
  name : String
  artist : String
  videoId : String
  thumbnails : List Thumbnail
  duration : String
  album : Option String
deriving DecidableEq, Repr

/-- `PlayerState` from `music.types.ts` (owned by the state controller). -/
structure PlayerState where
  currentSong : Option Song
  isPlaying : Bool
  currentTime : ℚ
  duration : ℚ
  isLoading : Bool
deriving DecidableEq, Repr

/-- The initial controller state passed to `useState` in `PlayerProvider`. -/
def initPlayerState : PlayerState :=
  { currentSong := none, isPlaying := false, currentTime := 0
    duration := 0, isLoading := false }

namespace ApiService

/-- An observable side effect of the API client: one HTTP request. -/
inductive ApiEffect where
  | fetch (url : String)
deriving DecidableEq, Repr

/-- The fallback base URL in `api.service.ts`
(`import.meta.env.VITE_API_URL || 'http://localhost:3000'`). -/
def apiBaseUrlFallback : String := "http://localhost:3000"

/-- `getStreamUrl` from `api.service.ts`: builds the proxy endpoint URL by
string concatenation and performs no request (the returned effect list
records every `fetch` the function would issue). -/
def getStreamUrl (base videoId : String) : String × List ApiEffect :=
  (base ++ "/api/stream/" ++ videoId, [])

/-- `checkHealth` from `api.service.ts`: probes `<base>/api/health`;
`ok` is the oracle for whether the HTTP call succeeds (`response.ok`),
any failure is swallowed and reported as `false`. -/
def checkHealth (base : String) (ok : Bool) : Bool × List ApiEffect :=
  (ok, [.fetch (base ++ "/api/health")])

end ApiService

namespace Home

/-- Code points removed by JavaScript `String.prototype.trim`
(WhiteSpace and LineTerminator). -/
def isJsWhitespace (c : Char) : Bool :=
  ([9, 10, 11, 12, 13, 32, 160, 5760,
    8192, 8193, 8194, 8195, 8196, 8197, 8198, 8199, 8200, 8201, 8202,
    8232, 8233, 8239, 8287, 12288, 65279] : List UInt32).contains c.val

/-- JavaScript `query.trim()`. -/
def jsTrim (s : String) : String :=
  String.mk (((s.toList.dropWhile isJsWhitespace).reverse.dropWhile
    isJsWhitespace).reverse)

/-- Local state of the `Home` screen relevant to `handleSearch`. -/
structure HomeState where
  songs : List Song
  isLoading : Bool
  error : Option String
deriving DecidableEq, Repr

/-- Oracle for what `await searchSongs(query)` would do. -/
inductive SearchOutcome where
  | ok (results : List Song)
  | fail
deriving DecidableEq, Repr

/-- `handleSearch` from `Home.tsx`.  Returns the final component state
together with the list of queries passed to `searchSongs` (so "searchSongs
is never invoked" is the returned list being empty).  The guard is
`if (!query.trim()) { setSongs([]); return }`, i.e. the falsy (empty)
trimmed string short-circuits before the network call. -/
def handleSearch (query : String) (outcome : SearchOutcome)
    (st : HomeState) : HomeState × List String :=
  if jsTrim query = "" then
    ({ st with songs := [] }, [])
  else
    match outcome with
    | .ok results =>
        ({ songs := results, isLoading := false, error := none }, [query])
    | .fail =>
        ({ songs := [], isLoading := false
           error := some "Search failed. Please try again." }, [query])

end Home

namespace PlayerPage

/-- JavaScript truncation (the rounding used by the `%` operator):
toward zero. -/
def jsTrunc (x : ℚ) : ℤ :=
  if 0 ≤ x then ⌊x⌋ else ⌈x⌉

/-- JavaScript `%` on finite numbers with a positive right operand:
`a % b = a - b * trunc(a / b)` (sign follows the dividend). -/
def jsMod (a b : ℚ) : ℚ :=
  a - b * (jsTrunc (a / b) : ℚ)

/-- JavaScript `String.prototype.padStart(n, c)`. -/
def padStart (s : String) (n : Nat) (c : Char) : String :=
  String.mk (List.replicate (n - s.length) c) ++ s

/-- `formatTime` from `Player.tsx`.  The argument is a JS number with
`none` standing for NaN (`isNaN(seconds)`). -/
def formatTime (x : Option ℚ) : String :=
  match x with
  | none => "0:00"
  | some seconds =>
      if seconds = 0 then "0:00"
      else
        let mins : ℤ := ⌊seconds / 60⌋
        let secs : ℤ := ⌊jsMod seconds 60⌋
        toString mins ++ ":" ++ padStart (toString secs) 2 '0'

end PlayerPage

/-- The four `MediaError` codes the error listener classifies, plus a
default for any other code. -/
inductive MediaErrCode where
  | aborted
  | network
  | decode
  | srcNotSupported
  | other
deriving DecidableEq, Repr

/-- The message computed by the `error` event listener in
`audio.service.ts`: `none` models `this.audio.error` being null ("Unknown
error", unwrapped), `some c` models a `MediaError` with code `c` (switch
over the four codes, default left at "Unknown error", then wrapped in the
`MEDIA_ELEMENT_ERROR:` prefix). -/
def classifyError (code : Option MediaErrCode) : String :=
  match code with
  | none => "Unknown error"
  | some c =>
      let base :=
        match c with
        | .aborted => "Playback aborted"
        | .network => "Network error - Check your connection"
        | .decode => "Decode error - Invalid audio format"
        | .srcNotSupported => "Format not supported"
        | .other => "Unknown error"
      "MEDIA_ELEMENT_ERROR: " ++ base

/-- The `MediaMetadata` built by `updateMediaSession`: title, artist,
album (`song.album || 'Unknown Album'`), and one artwork entry per
thumbnail (src and `width x height` size string, in thumbnail order). -/
structure MediaMeta where
  title : String
  artist : String
  album : String
  artwork : List (String × String)
deriving DecidableEq, Repr

/-- `new MediaMetadata({...})` as built from `this.currentSong`. -/
def mkMediaMeta (song : Song) : MediaMeta :=
  { title := song.name
    artist := song.artist
    album := song.album.getD "Unknown Album"
    artwork := song.thumbnails.map
      (fun t => (t.url, toString t.width ++ "x" ++ toString t.height)) }

/-- Events the `HTMLAudioElement` delivers to its listeners. -/
inductive MediaEvt where
  | loadedMeta (dur : ℚ)
  | errEvt (code : Option MediaErrCode)
  | playEvt
  | pauseEvt
  | endedEvt
  | timeEvt
deriving DecidableEq, Repr

/-- A queued media element task: the event plus the load generation of the
resource that queued it.  The load algorithm removes every queued task of
a superseded resource, so tasks are always queued with the element's
current generation. -/
structure MediaTask where
  gen : Nat
  evt : MediaEvt
deriving DecidableEq, Repr

/-- The observable state of the single `HTMLAudioElement`.
`duration = none` models NaN (no metadata loaded); `loadGen` counts how
many times the load algorithm has run (each `src`+`load()` bumps it). -/
structure AudioElem where
  src : Option String
  paused : Bool
  currentTime : ℚ
  duration : Option ℚ
  volume : ℚ
  playbackRate : ℚ
  loadGen : Nat
deriving DecidableEq, Repr

/-- A freshly constructed `new Audio()`. -/
def initAudioElem : AudioElem :=
  { src := none, paused := true, currentTime := 0, duration := none
    volume := 1, playbackRate := 1, loadGen := 0 }

/-- Commands the service sends to the audio primitive (used to observe
delegation). -/
inductive ElemCmd where
  | playCmd
  | pauseCmd
  | loadCmd
  | setSrcCmd (url : String)
  | setTimeCmd (t : ℚ)
deriving DecidableEq, Repr

/-- Combined state of the audio element, the `AudioService` singleton and
the `PlayerProvider` controller (which has registered all six callbacks at
mount, as its `useEffect` does). -/
structure SysState where
  elem : AudioElem
  svcCurrentSong : Option Song
  metadata : Option MediaMeta
  wakeLock : Bool
  player : PlayerState
  pendingTasks : List MediaTask
  elemCmds : List ElemCmd
  errorCbCalls : Nat
  lastError : Option String
deriving DecidableEq, Repr

/-- The app after construction: fresh element, no song, controller mounted
with its initial state. -/
def initSys : SysState :=
  { elem := initAudioElem, svcCurrentSong := none, metadata := none
    wakeLock := false, player := initPlayerState, pendingTasks := []
    elemCmds := [], errorCbCalls := 0, lastError := none }

namespace Player

/-- The `onPlay` subscriber in `PlayerProvider`:
`setState(prev => ({...prev, isPlaying: true, isLoading: false}))`. -/
def onPlayHandler (p : PlayerState) : PlayerState :=
  { p with isPlaying := true, isLoading := false }

/-- The `onPause` subscriber: `{...prev, isPlaying: false}`. -/
def onPauseHandler (p : PlayerState) : PlayerState :=
  { p with isPlaying := false }

/-- The `onTimeUpdate` subscriber: `{...prev, currentTime:
audioService.getCurrentTime(), duration: audioService.getDuration()}`
(the getter values are passed in). -/
def onTimeUpdateHandler (ct d : ℚ) (p : PlayerState) : PlayerState :=
  { p with currentTime := ct, duration := d }

/-- The `onLoaded` subscriber: `{...prev, duration:
audioService.getDuration()}`. -/
def onLoadedHandler (d : ℚ) (p : PlayerState) : PlayerState :=
  { p with duration := d }

/-- The `onEnded` subscriber: `{...prev, isPlaying: false, currentTime: 0}`. -/
def onEndedHandler (p : PlayerState) : PlayerState :=
  { p with isPlaying := false, currentTime := 0 }

/-- The `onError` subscriber: `{...prev, isPlaying: false, isLoading:
false}`. -/
def onErrorHandler (p : PlayerState) : PlayerState :=
  { p with isPlaying := false, isLoading := false }

end Player

namespace AudioService

/-- `getCurrentTime()`: `this.audio.currentTime`. -/
def getCurrentTime (s : SysState) : ℚ := s.elem.currentTime

/-- `getDuration()`: `this.audio.duration || 0`. -/
def getDuration (s : SysState) : ℚ := s.elem.duration.getD 0

/-- `isPlaying()`: `!this.audio.paused`. -/
def isPlaying (s : SysState) : Bool := !s.elem.paused

/-- `getCurrentSong()`: `this.currentSong`. -/
def getCurrentSong (s : SysState) : Option Song := s.svcCurrentSong

/-- Append a command to the delegation log. -/
def logCmd (c : ElemCmd) (s : SysState) : SysState :=
  { s with elemCmds := s.elemCmds ++ [c] }

/-- `this.audio.pause()`: if the element was playing it becomes paused and
queues a `pause` event task (tagged with the current load generation);
pausing a paused element is a no-op. -/
def elemPause (s : SysState) : SysState :=
  if s.elem.paused then s
  else
    { s with elem := { s.elem with paused := true }
             pendingTasks :=
               s.pendingTasks ++ [⟨s.elem.loadGen, .pauseEvt⟩] }

/-- `this.audio.play()` invocation (synchronous part): if the element was
paused it becomes unpaused and queues a `play` event task. -/
def elemPlayInvoke (s : SysState) : SysState :=
  if s.elem.paused then
    { s with elem := { s.elem with paused := false }
             pendingTasks :=
               s.pendingTasks ++ [⟨s.elem.loadGen, .playEvt⟩] }
  else s

/-- `this.audio.src = url; this.audio.load()`: the media element load
algorithm removes every pending media task of the superseded resource,
aborts its fetch (modelled by bumping the load generation) and resets the
duration to NaN. -/
def elemSetSrcLoad (url : String) (s : SysState) : SysState :=
  { s with
    elem := { s.elem with
              src := some url, duration := none,
              loadGen := s.elem.loadGen + 1 },
    pendingTasks := [],
    elemCmds := s.elemCmds ++ [.setSrcCmd url, .loadCmd] }

/-- `updateMediaSession()`: rebuilds the now-playing metadata from
`this.currentSong`, doing nothing when no song is set. -/
def updateMediaSession (s : SysState) : SysState :=
  match s.svcCurrentSong with
  | some song => { s with metadata := some (mkMediaMeta song) }
  | none => s

/-- The `error` event listener: classifies `this.audio.error`, logs, and
invokes the registered `onError` callback once, which runs the
controller's `onError` subscriber. -/
def dispatchError (code : Option MediaErrCode) (s : SysState) : SysState :=
  { s with errorCbCalls := s.errorCbCalls + 1
           lastError := some ("Audio error: " ++ classifyError code)
           player := Player.onErrorHandler s.player }

/-- Run the listeners attached to one delivered media event, in
registration order (`setupEventListeners` first, then `setupWakeLock`'s
play/pause listeners). -/
def applyEvt (e : MediaEvt) (s : SysState) : SysState :=
  match e with
  | .loadedMeta d =>
      let s1 := { s with elem := { s.elem with duration := some d } }
      let s2 := updateMediaSession s1
      { s2 with player := Player.onLoadedHandler (getDuration s2) s2.player }
  | .errEvt code => dispatchError code s
  | .playEvt =>
      let s1 := updateMediaSession s
      { s1 with wakeLock := true, player := Player.onPlayHandler s1.player }
  | .pauseEvt =>
      { s with wakeLock := false, player := Player.onPauseHandler s.player }
  | .endedEvt =>
      { s with player := Player.onEndedHandler s.player }
  | .timeEvt =>
      let p := Player.onTimeUpdateHandler (getCurrentTime s) (getDuration s)
        s.player
      { s with player := p }

/-- The event loop delivers the oldest queued media task.  Delivery is
unconditional: whatever sits in the queue reaches the listeners (the only
protection against superseded events is their removal by the load
algorithm in `elemSetSrcLoad`). -/
def deliverNext (s : SysState) : SysState :=
  match s.pendingTasks with
  | [] => s
  | t :: rest => applyEvt t.evt { s with pendingTasks := rest }

/-- `stop()` from `audio.service.ts`: `audio.pause()`,
`audio.currentTime = 0`, clear `currentSong`, clear the media session
metadata, release the wake lock. -/
def stop (s : SysState) : SysState :=
  let s1 := elemPause (logCmd .pauseCmd s)
  let s2 := { s1 with
              elem := { s1.elem with currentTime := 0 },
              elemCmds := s1.elemCmds ++ [ElemCmd.setTimeCmd 0] }
  { s2 with svcCurrentSong := none, metadata := none, wakeLock := false }

/-- `pause()` from `audio.service.ts`: unconditionally `this.audio.pause()`. -/
def pause (s : SysState) : SysState :=
  elemPause (logCmd .pauseCmd s)

/-- `resume()` from `audio.service.ts`: unconditionally `this.audio.play()`. -/
def resume (s : SysState) : SysState :=
  elemPlayInvoke (logCmd .playCmd s)

/-- `seek(time)` from `audio.service.ts`: `this.audio.currentTime = time`
then `updatePositionState()` (media-session position reporting, no state
of this model). -/
def seek (t : ℚ) (s : SysState) : SysState :=
  { s with elem := { s.elem with currentTime := t }
           elemCmds := s.elemCmds ++ [.setTimeCmd t] }

/-- `setVolume(volume)`: `this.audio.volume = Math.max(0, Math.min(1,
volume))`. -/
def setVolume (v : ℚ) (s : SysState) : SysState :=
  { s with elem := { s.elem with volume := max 0 (min 1 v) } }

/-- `setPlaybackRate(rate)`: `this.audio.playbackRate = Math.max(0.25,
Math.min(2, rate))`. -/
def setPlaybackRate (r : ℚ) (s : SysState) : SysState :=
  { s with elem := { s.elem with playbackRate := max (1/4) (min 2 r) } }

/-- The synchronous (single macrotask, microtasks included) part of
`play(song)`: `this.stop()`, `await getStreamUrl(song.videoId)` (an
immediately-resolved promise, so no event task can run in between),
`this.currentSong = song`, set `preload`, assign `src`, `load()`, and
invoke `this.audio.play()`.  `allowed` is the platform's autoplay
decision: when blocked, `play()` returns an already-rejected promise and
leaves the element paused. -/
def play_sync (base : String) (song : Song) (allowed : Bool)
    (s : SysState) : SysState :=
  let s1 := stop s
  let url := (ApiService.getStreamUrl base song.videoId).1
  let s2 := { s1 with svcCurrentSong := some song }
  let s3 := elemSetSrcLoad url s2
  let s4 := logCmd .playCmd s3
  if allowed then elemPlayInvoke s4 else s4

/-- How the promise of `await this.audio.play()` settles. -/
inductive PlaySettle where
  | resolves
  | rejects
deriving DecidableEq, Repr

/-- Settlement of `await this.audio.play()` inside `play(song)`: on
resolution the method continues with `this.updateMediaSession()`; on
rejection the `catch` only logs and rethrows — no state is touched, no
callback is invoked. -/
def play_settle : PlaySettle → SysState → SysState
  | .resolves, s => updateMediaSession s
  | .rejects, s => s

end AudioService

namespace Player

/-- The optimistic update at the top of `playSong`:
`setState(prev => ({...prev, isLoading: true, currentSong: song}))`. -/
def optimisticUpdate (song : Song) (p : PlayerState) : PlayerState :=
  { p with isLoading := true, currentSong := some song }

/-- The synchronous part of the controller's `playSong(song)`: the
optimistic update followed by the synchronous part of
`audioService.play(song)`. -/
def playSong_sync (base : String) (song : Song) (allowed : Bool)
    (s : SysState) : SysState :=
  AudioService.play_sync base song allowed
    { s with player := optimisticUpdate song s.player }

/-- The `catch` branch of `playSong`: `setState(prev => ({...prev,
isLoading: false}))`, then rethrow. -/
def playSong_onReject (s : SysState) : SysState :=
  { s with player := { s.player with isLoading := false } }

/-- A completed successful `playSong(song)` call (synchronous part plus
the resolution of `await this.audio.play()`). -/
def playSong_success (base : String) (song : Song) (s : SysState) :
    SysState :=
  AudioService.play_settle .resolves (playSong_sync base song true s)

/-- The controller's `stop()`: `audioService.stop()` then reset the whole
state object. -/
def stop (s : SysState) : SysState :=
  let s1 := AudioService.stop s
  { s1 with player := initPlayerState }

end Player

/-- User-driven adapter operations that may occur between `play` and
`stop` (for the "after any sequence of pause/resume/seek" claims). -/
inductive SvcOp where
  | opPause
  | opResume
  | opSeek (t : ℚ)
deriving DecidableEq, Repr

/-- Apply one adapter operation. -/
def applySvcOp : SvcOp → SysState → SysState
  | .opPause, s => AudioService.pause s
  | .opResume, s => AudioService.resume s
  | .opSeek t, s => AudioService.seek t s

/-- Apply a sequence of adapter operations, oldest first. -/
def applySvcOps : List SvcOp → SysState → SysState
  | [], s => s
  | op :: ops, s => applySvcOps ops (applySvcOp op s)

/-- Platform / event-loop steps that can happen once a `playSong` call has
run its synchronous part: the element's current fetch queues a
`loadedmetadata` or `error` task (an aborted fetch cannot queue anything,
so tasks always carry the current load generation), the pending
`audio.play()` promise resolves, or the event loop delivers the oldest
queued task. -/
inductive EnvStep where
  | qLoaded (dur : ℚ)
  | qError (code : Option MediaErrCode)
  | settleOk
  | deliver
deriving DecidableEq, Repr

/-- Apply one platform step. -/
def applyEnvStep : EnvStep → SysState → SysState
  | .qLoaded d, s =>
      { s with pendingTasks :=
          s.pendingTasks ++ [⟨s.elem.loadGen, .loadedMeta d⟩] }
  | .qError code, s =>
      { s with pendingTasks :=
          s.pendingTasks ++ [⟨s.elem.loadGen, .errEvt code⟩] }
  | .settleOk, s => AudioService.updateMediaSession s
  | .deliver, s => AudioService.deliverNext s

/-- Run a sequence of platform steps, oldest first. -/
def runEnv : List EnvStep → SysState → SysState
  | [], s => s
  | e :: es, s => runEnv es (applyEnvStep e s)

/-- Every queued media task belongs to the element's current load
generation (no task of a superseded load survives). -/
def tasksCurrentGen (s : SysState) : Bool :=
  s.pendingTasks.all (fun t => t.gen == s.elem.loadGen)

/-- A concrete song used in counterexamples. -/
def songA : Song :=
  { name := "Song A", artist := "Artist X", videoId := "vidA"
    thumbnails := [], duration := "3:00", album := none }

/-- A second concrete song, distinct from `songA`. -/
def songB : Song :=
  { name := "Song B", artist := "Artist Y", videoId := "vidB"
    thumbnails := [], duration := "4:00", album := none }

/-- Concrete run for claim C2: `playSong(songA)` whose
`await this.audio.play()` rejects (autoplay blocked), followed by the
`catch` branches of `play` and `playSong`. -/
def c2_state : SysState :=
  Player.playSong_onReject
    (AudioService.play_settle .rejects
      (Player.playSong_sync ApiService.apiBaseUrlFallback songA false
        initSys))

/-- Concrete run for claim C7: a successful `playSong(songA)` followed by
`stop()` — no song is active but the element still holds the old source. -/
def c7_state : SysState :=
  AudioService.stop
    (Player.playSong_success ApiService.apiBaseUrlFallback songA initSys)

/-- Concrete state for claim C1: the controller already shows `songB`
(optimistically, duration still the 240 read earlier), while a
`loadedmetadata` task of a superseded load (generation 0, duration 180,
i.e. songA's stream) sits in the delivery queue of an element whose
current load generation is 1. -/
def staleTaskState : SysState :=
  { initSys with
    elem := { initAudioElem with
              src := some "http://localhost:3000/api/stream/vidA"
              loadGen := 1 }
    svcCurrentSong := some songB
    player := { currentSong := some songB, isPlaying := false
                currentTime := 0, duration := 240, isLoading := true }
    pendingTasks := [⟨0, .loadedMeta 180⟩] }

section HelperLemmas

/-- `play_sync` leaves the controller state alone, records the requested
song, bumps the load generation, resets the element duration, keeps the
error-callback count, and leaves pending only the (new-generation) `play`
event task when autoplay is allowed. -/
theorem play_sync_spec (base : String) (song : Song) (allowed : Bool)
    (s : SysState) :
    (AudioService.play_sync base song allowed s).player = s.player ∧
    (AudioService.play_sync base song allowed s).svcCurrentSong =
      some song ∧
    (AudioService.play_sync base song allowed s).elem.loadGen =
      s.elem.loadGen + 1 ∧
    (AudioService.play_sync base song allowed s).elem.duration = none ∧
    (AudioService.play_sync base song allowed s).errorCbCalls =
      s.errorCbCalls ∧
    (AudioService.play_sync base song allowed s).pendingTasks =
      (if allowed then [⟨s.elem.loadGen + 1, MediaEvt.playEvt⟩] else []) := by
  cases hp : s.elem.paused <;> cases allowed <;>
    simp [AudioService.play_sync, AudioService.stop,
      AudioService.elemPause, AudioService.elemPlayInvoke,
      AudioService.elemSetSrcLoad, AudioService.logCmd, hp]

/-- Delivering one event never touches the queue or the load generation. -/
theorem applyEvt_queue_gen (e : MediaEvt) (s : SysState) :
    (AudioService.applyEvt e s).pendingTasks = s.pendingTasks ∧
    (AudioService.applyEvt e s).elem.loadGen = s.elem.loadGen := by
  cases e <;> cases hcs : s.svcCurrentSong <;>
    simp [AudioService.applyEvt, AudioService.updateMediaSession,
      AudioService.dispatchError, AudioService.getDuration,
      AudioService.getCurrentTime, hcs]

/-- One platform step preserves "all queued tasks carry the current load
generation" and the load generation itself. -/
theorem envStep_inv (e : EnvStep) (s : SysState)
    (h : tasksCurrentGen s = true) :
    tasksCurrentGen (applyEnvStep e s) = true ∧
    (applyEnvStep e s).elem.loadGen = s.elem.loadGen := by
  cases e with
  | qLoaded d =>
      simp_all [applyEnvStep, tasksCurrentGen]
  | qError code =>
      simp_all [applyEnvStep, tasksCurrentGen]
  | settleOk =>
      cases hcs : s.svcCurrentSong <;>
        simp_all [applyEnvStep, AudioService.updateMediaSession,
          tasksCurrentGen]
  | deliver =>
      cases hq : s.pendingTasks with
      | nil =>
          simp_all [applyEnvStep, AudioService.deliverNext, hq]
      | cons t rest =>
          have hevt := applyEvt_queue_gen t.evt { s with pendingTasks := rest }
          simp only [applyEnvStep, AudioService.deliverNext, hq]
          simp only [tasksCurrentGen, hq, List.all_cons, Bool.and_eq_true]
            at h
          simp [tasksCurrentGen, hevt.1, hevt.2, h.2]

/-- Any sequence of platform steps preserves the generation invariant and
the load generation. -/
theorem runEnv_inv (steps : List EnvStep) (s : SysState)
    (h : tasksCurrentGen s = true) :
    tasksCurrentGen (runEnv steps s) = true ∧
    (runEnv steps s).elem.loadGen = s.elem.loadGen := by
  induction steps generalizing s with
  | nil => exact ⟨h, rfl⟩
  | cons e es ih =>
      have he := envStep_inv e s h
      have hr := ih (applyEnvStep e s) he.1
      exact ⟨hr.1, hr.2.trans he.2⟩

end HelperLemmas

/-- Claim C1, counterexample: the controller's `onLoaded` subscriber
applies `audioService.getDuration()` unconditionally — it receives no
song identity and performs no check of the current song.  Concretely, in
`staleTaskState` the controller shows `songB` (duration 240) while a
`loadedmetadata` task of a superseded load (generation 0, duration 180)
sits in the queue; delivering it overwrites the controller's duration
with 180 even though the current song is `songB`.  So the claim's stated
mechanism — "the handler checks the identity of the current song before
applying state" — is false of the code. -/
theorem c1_counterexample :
    staleTaskState.player.currentSong = some songB ∧
    staleTaskState.player.duration = 240 ∧
    staleTaskState.pendingTasks.head?.map MediaTask.gen = some 0 ∧
    staleTaskState.elem.loadGen = 1 ∧
    (AudioService.deliverNext staleTaskState).player.currentSong =
      some songB ∧
    (AudioService.deliverNext staleTaskState).player.duration = 180 ∧
    (Player.onLoadedHandler 180
      { currentSong := some songB, isPlaying := false, currentTime := 0
        duration := 240, isLoading := true }).duration = 180 ∧
    songA ≠ songB := by
  refine ⟨rfl, rfl, rfl, rfl, rfl, rfl, rfl, by decide⟩

/-- Claim C1, amended: after `playSong(songB)` supersedes `songA`'s load,
the final state does reflect `songB` only — but the protection is the
platform's media-element load algorithm, not a handler-side identity
check.  `playSong(songB)`'s synchronous part (through `src := ...;
load(); play()` — its one `await` resumes on the microtask queue, before
any event task can run) removes every pending media task of the
superseded load, bumps the load generation and resets the element's
duration, so: the controller's current song is `songB`, every task
pending then or after any sequence of platform steps carries the new
load's generation (none of `songA`'s `loaded`/`error` tasks survives to
be delivered), and `songA`'s duration is no longer readable from the
element. -/
theorem c1_amended (base : String) (songNew : Song) (allowed : Bool)
    (s : SysState) (steps : List EnvStep) :
    (Player.playSong_sync base songNew allowed s).player.currentSong =
      some songNew ∧
    (Player.playSong_sync base songNew allowed s).elem.duration = none ∧
    (Player.playSong_sync base songNew allowed s).elem.loadGen =
      s.elem.loadGen + 1 ∧
    tasksCurrentGen (Player.playSong_sync base songNew allowed s) = true ∧
    tasksCurrentGen
      (runEnv steps (Player.playSong_sync base songNew allowed s)) = true ∧
    (runEnv steps (Player.playSong_sync base songNew allowed s)).elem.loadGen
      = s.elem.loadGen + 1 := by
  have hspec := play_sync_spec base songNew allowed
    { s with player := Player.optimisticUpdate songNew s.player }
  have hplayer :
      (Player.playSong_sync base songNew allowed s).player =
        Player.optimisticUpdate songNew s.player := hspec.1
  have hgen :
      (Player.playSong_sync base songNew allowed s).elem.loadGen =
        s.elem.loadGen + 1 := hspec.2.2.1
  have hinv : tasksCurrentGen (Player.playSong_sync base songNew allowed s)
      = true := by
    have hq := hspec.2.2.2.2.2
    cases allowed <;>
      simp_all [tasksCurrentGen, Player.playSong_sync]
  have hrun := runEnv_inv steps _ hinv
  refine ⟨?_, ?_, ?_, hinv, hrun.1, ?_⟩
  · rw [Player.playSong_sync, hspec.1]
    rfl
  · exact hspec.2.2.2.1
  · exact hgen
  · rw [hrun.2]
    exact hgen

/-- Claim C2, counterexample: run `playSong(songA)` with the underlying
`audio.play()` rejecting.  Afterwards the adapter is not in the STOPPED
state — `getCurrentSong()` returns `songA`, not null — and the registered
`onError` callback has never been invoked (the rejection path only logs
and rethrows; the error callback fires only from the media element's
`error` event). -/
theorem c2_counterexample :
    AudioService.getCurrentSong c2_state = some songA ∧
    c2_state.errorCbCalls = 0 := by
  refine ⟨rfl, rfl⟩

/-- Claim C2, amended: for every song, if `play(song)` rejects, the
adapter keeps `currentSong` = the requested song (`getCurrentSong()` is
not null, the state is not STOPPED) and the rejection itself does not
invoke the `onError` callback; the callback is invoked (once, with a
classified message) only when the media element dispatches an `error`
event. -/
theorem c2_amended (base : String) (song : Song) (s : SysState)
    (code : Option MediaErrCode) :
    AudioService.getCurrentSong
      (Player.playSong_onReject
        (AudioService.play_settle .rejects
          (Player.playSong_sync base song false s))) = some song ∧
    (Player.playSong_onReject
      (AudioService.play_settle .rejects
        (Player.playSong_sync base song false s))).errorCbCalls =
      s.errorCbCalls ∧
    (AudioService.dispatchError code
      (Player.playSong_onReject
        (AudioService.play_settle .rejects
          (Player.playSong_sync base song false s)))).errorCbCalls =
      s.errorCbCalls + 1 ∧
    (AudioService.dispatchError code
      (Player.playSong_onReject
        (AudioService.play_settle .rejects
          (Player.playSong_sync base song false s)))).lastError =
      some ("Audio error: " ++ classifyError code) := by
  have hspec := play_sync_spec base song false
    { s with player := Player.optimisticUpdate song s.player }
  refine ⟨?_, ?_, ?_, rfl⟩
  · simpa [Player.playSong_sync, AudioService.play_settle,
      Player.playSong_onReject, AudioService.getCurrentSong,
      AudioService.dispatchError] using hspec.2.1
  · simpa [Player.playSong_sync, AudioService.play_settle,
      Player.playSong_onReject, AudioService.dispatchError]
      using hspec.2.2.2.2.1
  · simpa [Player.playSong_sync, AudioService.play_settle,
      Player.playSong_onReject, AudioService.dispatchError]
      using hspec.2.2.2.2.1

/-- Claim C3 (confirmed): for every song, a completed `play(song)`
followed by any sequence of `pause`/`resume`/`seek` and then `stop()`
leaves the adapter with `getCurrentSong()` null, reported position 0,
and cleared now-playing metadata. -/
theorem c3_play_then_stop_resets (base : String) (song : Song)
    (s : SysState) (ops : List SvcOp) :
    AudioService.getCurrentSong
      (AudioService.stop
        (applySvcOps ops (Player.playSong_success base song s))) = none ∧
    AudioService.getCurrentTime
      (AudioService.stop
        (applySvcOps ops (Player.playSong_success base song s))) = 0 ∧
    (AudioService.stop
      (applySvcOps ops (Player.playSong_success base song s))).metadata =
      none := by
  refine ⟨rfl, ?_, rfl⟩
  simp [AudioService.stop, AudioService.getCurrentTime]

/-- Claim C4 (confirmed): `playSong(song)` first applies the optimistic
update — `isLoading := true`, `currentSong := song`, all other fields
preserved — before any adapter work confirms playback (the synchronous
part of `playSong` changes the controller state by exactly this update);
and `isLoading` is set back to `false` exactly by the adapter's play
signal, by the failure path of the `play` call (the `catch` branch and
the adapter's error signal), while the pause / time-update / loaded /
ended subscribers all preserve it. -/
theorem c4_optimistic_update (base : String) (song : Song)
    (allowed : Bool) (s : SysState) (p : PlayerState) (ct d : ℚ) :
    (Player.optimisticUpdate song p).isLoading = true ∧
    (Player.optimisticUpdate song p).currentSong = some song ∧
    (Player.optimisticUpdate song p).isPlaying = p.isPlaying ∧
    (Player.optimisticUpdate song p).currentTime = p.currentTime ∧
    (Player.optimisticUpdate song p).duration = p.duration ∧
    (Player.playSong_sync base song allowed s).player =
      Player.optimisticUpdate song s.player ∧
    (Player.onPlayHandler p).isLoading = false ∧
    (Player.playSong_onReject s).player.isLoading = false ∧
    (Player.onErrorHandler p).isLoading = false ∧
    (Player.onPauseHandler p).isLoading = p.isLoading ∧
    (Player.onTimeUpdateHandler ct d p).isLoading = p.isLoading ∧
    (Player.onLoadedHandler d p).isLoading = p.isLoading ∧
    (Player.onEndedHandler p).isLoading = p.isLoading := by
  refine ⟨rfl, rfl, rfl, rfl, rfl, ?_, rfl, rfl, rfl, rfl, rfl, rfl, rfl⟩
  exact (play_sync_spec base song allowed
    { s with player := Player.optimisticUpdate song s.player }).1

/-- Claim C5 (confirmed): one underlying `error` event makes the
controller state `isPlaying = false`, `isLoading = false` with
`currentSong` (and the rest of the state except the loading/playing
flags) unchanged, and invokes the registered error callback exactly once,
with the classified message; delivering an `error` event is exactly
`dispatchError`. -/
theorem c5_error_event (code : Option MediaErrCode) (s : SysState) :
    (AudioService.dispatchError code s).player.isPlaying = false ∧
    (AudioService.dispatchError code s).player.isLoading = false ∧
    (AudioService.dispatchError code s).player.currentSong =
      s.player.currentSong ∧
    (AudioService.dispatchError code s).player.currentTime =
      s.player.currentTime ∧
    (AudioService.dispatchError code s).player.duration =
      s.player.duration ∧
    (AudioService.dispatchError code s).errorCbCalls =
      s.errorCbCalls + 1 ∧
    (AudioService.dispatchError code s).lastError =
      some ("Audio error: " ++ classifyError code) ∧
    AudioService.applyEvt (.errEvt code) s =
      AudioService.dispatchError code s := by
  refine ⟨rfl, rfl, rfl, rfl, rfl, rfl, rfl, rfl⟩

/-- Claim C6 (confirmed): `setVolume(v)` stores exactly
`max(0, min(1, v))` — in particular `setVolume(-1)` stores 0 and
`setVolume(5)` stores 1 — and `setPlaybackRate(r)` stores exactly
`max(0.25, min(2, r))`. -/
theorem c6_clamping (v r : ℚ) (s : SysState) :
    (AudioService.setVolume v s).elem.volume = max 0 (min 1 v) ∧
    (AudioService.setPlaybackRate r s).elem.playbackRate =
      max (1/4) (min 2 r) ∧
    (AudioService.setVolume (-1) s).elem.volume = 0 ∧
    (AudioService.setVolume 5 s).elem.volume = 1 := by
  refine ⟨rfl, rfl, ?_, ?_⟩ <;> simp [AudioService.setVolume]

/-- Claim C7, counterexample: after `play(songA)` then `stop()`, no song
is active (`getCurrentSong()` is null), yet `pause()` and `resume()` are
not no-ops: both delegate a command to the audio primitive, and
`resume()` flips the playing flag from false to true (the element still
holds the stale source). -/
theorem c7_counterexample :
    AudioService.getCurrentSong c7_state = none ∧
    AudioService.isPlaying c7_state = false ∧
    AudioService.isPlaying (AudioService.resume c7_state) = true ∧
    (AudioService.resume c7_state).elemCmds =
      c7_state.elemCmds ++ [ElemCmd.playCmd] ∧
    (AudioService.pause c7_state).elemCmds =
      c7_state.elemCmds ++ [ElemCmd.pauseCmd] := by
  refine ⟨rfl, rfl, rfl, rfl, rfl⟩

/-- Claim C7, amended: `pause()` and `resume()` delegate unconditionally
to the audio primitive, whether or not a song is active; `pause()` leaves
the element paused and `resume()` leaves it unpaused (so `resume()` after
`stop()` restarts the stale source); neither touches the current song. -/
theorem c7_amended (s : SysState) :
    (AudioService.pause s).elemCmds = s.elemCmds ++ [ElemCmd.pauseCmd] ∧
    (AudioService.resume s).elemCmds = s.elemCmds ++ [ElemCmd.playCmd] ∧
    (AudioService.pause s).elem.paused = true ∧
    (AudioService.resume s).elem.paused = false ∧
    AudioService.getCurrentSong (AudioService.pause s) =
      AudioService.getCurrentSong s ∧
    AudioService.getCurrentSong (AudioService.resume s) =
      AudioService.getCurrentSong s := by
  cases hp : s.elem.paused <;>
    simp [AudioService.pause, AudioService.resume, AudioService.elemPause,
      AudioService.elemPlayInvoke, AudioService.logCmd,
      AudioService.getCurrentSong, hp]

/-- Claim C8 (confirmed): for every query whose JS-trimmed form is empty,
`handleSearch` invokes `searchSongs` zero times (so no network call) and
sets the result list to empty. -/
theorem c8_empty_query (q : String) (h : Home.jsTrim q = "")
    (outcome : Home.SearchOutcome) (st : Home.HomeState) :
    (Home.handleSearch q outcome st).2 = [] ∧
    (Home.handleSearch q outcome st).1.songs = [] := by
  simp [Home.handleSearch, h]

/-- Witness for claim C8 at the concrete whitespace-only query. -/
theorem c8_witness :
    (Home.handleSearch "  " Home.SearchOutcome.fail
      ⟨[songA], true, none⟩).2 = [] ∧
    (Home.handleSearch "  " Home.SearchOutcome.fail
      ⟨[songA], true, none⟩).1.songs = [] :=
  c8_empty_query "  " (by decide) Home.SearchOutcome.fail
    ⟨[songA], true, none⟩

/-- Claim C9 (confirmed): for every videoId, `getStreamUrl` performs no
network call (its effect list is empty, unlike e.g. `checkHealth`) and no
validation, returning exactly base URL ++ "/api/stream/" ++ videoId; at
the configured fallback base it yields the localhost stream URL. -/
theorem c9_getStreamUrl (base vid : String) :
    (ApiService.getStreamUrl base vid).1 = base ++ "/api/stream/" ++ vid ∧
    (ApiService.getStreamUrl base vid).2 = [] ∧
    (ApiService.getStreamUrl ApiService.apiBaseUrlFallback "abc").1 =
      "http://localhost:3000/api/stream/abc" ∧
    (ApiService.checkHealth base true).2 ≠ [] := by
  refine ⟨rfl, rfl, rfl, by simp [ApiService.checkHealth]⟩

/-- Floor of a rational divided by 60 is integer division of its floor. -/
theorem floor_div_sixty (q : ℚ) : ⌊q / 60⌋ = ⌊q⌋ / 60 := by
  have h60 : (0 : ℚ) < 60 := by norm_num
  have hdm := Int.ediv_add_emod ⌊q⌋ 60
  have hnn : 0 ≤ ⌊q⌋ % 60 := Int.emod_nonneg _ (by norm_num)
  have hlt : ⌊q⌋ % 60 < 60 := Int.emod_lt_of_pos _ (by norm_num)
  have hfl : (⌊q⌋ : ℚ) ≤ q := Int.floor_le q
  have hfu : q < ⌊q⌋ + 1 := Int.lt_floor_add_one q
  rw [Int.floor_eq_iff]
  constructor
  · rw [le_div_iff₀ h60]
    have hle : ((⌊q⌋ / 60 : ℤ) : ℚ) * 60 ≤ ((⌊q⌋ : ℤ) : ℚ) := by
      exact_mod_cast (by omega : (⌊q⌋ / 60) * 60 ≤ ⌊q⌋)
    linarith
  · rw [div_lt_iff₀ h60]
    have hlt2 : ((⌊q⌋ : ℤ) : ℚ) + 1 ≤ ((⌊q⌋ / 60 + 1 : ℤ) : ℚ) * 60 := by
      exact_mod_cast (by omega : ⌊q⌋ + 1 ≤ (⌊q⌋ / 60 + 1) * 60)
    push_cast at hlt2 ⊢
    linarith

/-- For a nonnegative number, the JS expression
`Math.floor(seconds % 60)` equals `⌊seconds⌋ % 60`. -/
theorem jsMod_floor_sixty (q : ℚ) (h0 : 0 ≤ q) :
    ⌊PlayerPage.jsMod q 60⌋ = ⌊q⌋ % 60 := by
  have hq60 : 0 ≤ q / 60 := by positivity
  have hcast : (60 : ℚ) * ((⌊q / 60⌋ : ℤ) : ℚ) =
      ((60 * ⌊q / 60⌋ : ℤ) : ℚ) := by push_cast; ring
  rw [PlayerPage.jsMod, PlayerPage.jsTrunc, if_pos hq60, hcast,
    Int.floor_sub_int, floor_div_sixty]
  omega

/-- Claim C10 (confirmed): `formatTime` returns "0:00" for NaN (modelled
as `none`) and for 0, and otherwise, for nonnegative finite `s`, returns
`floor(s/60)`, a colon, and `floor(s % 60)` zero-padded to two digits. -/
theorem c10_formatTime (q : ℚ) (h0 : 0 ≤ q) :
    PlayerPage.formatTime none = "0:00" ∧
    PlayerPage.formatTime (some 0) = "0:00" ∧
    (q ≠ 0 → PlayerPage.formatTime (some q) =
      toString ⌊q / 60⌋ ++ ":" ++
        PlayerPage.padStart (toString (⌊q⌋ % 60)) 2 '0') := by
  refine ⟨rfl, rfl, fun hne => ?_⟩
  rw [PlayerPage.formatTime]
  rw [if_neg hne, jsMod_floor_sixty q h0]

/-- Witness for claim C10: `formatTime(61) = "1:01"`. -/
theorem c10_witness : PlayerPage.formatTime (some 61) = "1:01" := by
  have h := (c10_formatTime 61 (by norm_num)).2.2 (by norm_num)
  rw [h]
  have e1 : ⌊(61 : ℚ) / 60⌋ = 1 := by
    rw [floor_div_sixty]
    norm_num
  have e2 : (⌊(61 : ℚ)⌋ : ℤ) = 61 := by norm_num
  rw [e1, e2]
  decide

end AMusic
